import Mathlib

/-
Verification of the data-preparation pipeline of the CitiBike 2022 dashboards.

Sources embedded:
  src/notebooks/st_dashboard.py         (namespace D1)
  src/notebooks/st_dashboard_Part_2.py  (namespace D2)

A trip table is a list of rows.  Fields that may be missing in the CSV
(coordinates, temperature) or that are produced by a fallible parse
(the date column, parsed by pandas to_datetime) are Option-valued:
none models NaN / NaT.  Calendar dates are modelled as day numbers (Nat);
latitude, longitude and temperature as rationals.
-/

/-- One row of the loaded trip+weather table.  The date field holds the result
of parsing the start-date column (none models NaT); coordinate and temperature
fields are none when the CSV cell is missing. -/
structure Trip where
  ride_id : String
  date : Option Nat
  start_station_name : String
  start_lat : Option Rat
  start_lng : Option Rat
  end_station_name : String
  end_lat : Option Rat
  end_lng : Option Rat
  avgTemp : Option Rat
deriving DecidableEq

/-- Lexicographic order on strings by code points.  This is the order pandas
uses when sorting group keys of dtype object/str.  (Stated over the underlying
character list so that it evaluates by kernel reduction.) -/
def strLe (a b : String) : Prop := a.data ≤ b.data

/-- Strict lexicographic order on strings by code points. -/
def strLt (a b : String) : Prop := a.data < b.data

instance : DecidableRel strLe := fun a b => inferInstanceAs (Decidable (a.data ≤ b.data))

instance : DecidableRel strLt := fun a b => inferInstanceAs (Decidable (a.data < b.data))

instance : IsTotal String strLe := ⟨fun a b => le_total a.data b.data⟩

instance : IsTrans String strLe := ⟨fun _ _ _ h h' => le_trans h h'⟩

/-- Lexicographic combination of a strict order on the first component with an
order on the second; used for the composite group keys of the map views. -/
def lexLe {α β : Type} (ra : α → α → Prop) (rb : β → β → Prop) (p q : α × β) : Prop :=
  ra p.1 q.1 ∨ (p.1 = q.1 ∧ rb p.2 q.2)

instance {α β : Type} (ra : α → α → Prop) (rb : β → β → Prop)
    [DecidableRel ra] [DecidableRel rb] [DecidableEq α] : DecidableRel (lexLe ra rb) :=
  fun p q => inferInstanceAs (Decidable (ra p.1 q.1 ∨ (p.1 = q.1 ∧ rb p.2 q.2)))

/-- Group keys of a pandas groupby: the distinct keys present in the column,
sorted ascending (pandas sorts group keys by default). -/
def sortedKeys {K : Type} [DecidableEq K] (r : K → K → Prop) [DecidableRel r]
    (keys : List K) : List K :=
  keys.dedup.insertionSort r

/-- Embedding of df.groupby(key).size(): one (key, group size) row per distinct
key present in the key column, keys sorted ascending.  Rows whose key is
missing (NaN in any key column) are dropped by groupby, which is the pandas
default dropna=True; this is modelled by the key function returning none. -/
def groupbySize {K : Type} [DecidableEq K] (r : K → K → Prop) [DecidableRel r]
    (key : Trip → Option K) (rows : List Trip) : List (K × Nat) :=
  (sortedKeys r (rows.filterMap key)).map
    (fun k => (k, (rows.filter (fun t => key t = some k)).length))

/-- Descending order on trip counts, the sort key of sort_values with
ascending=False and of nlargest. -/
def countDesc (a b : String × Nat) : Prop := b.2 ≤ a.2

/-- Descending order on trip counts refined by ascending station name: the
order the top-station lists actually come out in, because groupby has already
sorted the distinct names ascending before the count sort runs. -/
def countDescName (a b : String × Nat) : Prop :=
  b.2 < a.2 ∨ (b.2 = a.2 ∧ strLe a.1 b.1)

instance : DecidableRel countDesc := fun a b => inferInstanceAs (Decidable (b.2 ≤ a.2))

instance : DecidableRel countDescName :=
  fun a b => inferInstanceAs (Decidable (b.2 < a.2 ∨ (b.2 = a.2 ∧ strLe a.1 b.1)))

instance : IsTotal (String × Nat) countDesc := ⟨fun a b => Nat.le_total b.2 a.2⟩

instance : IsTrans (String × Nat) countDesc := ⟨fun _ _ _ h h' => le_trans h' h⟩

instance : IsTotal (String × Nat) countDescName := by
  constructor
  intro a b
  rcases Nat.lt_trichotomy a.2 b.2 with h | h | h
  · exact Or.inr (Or.inl h)
  · rcases le_total a.1.data b.1.data with h' | h'
    · exact Or.inl (Or.inr ⟨h.symm, h'⟩)
    · exact Or.inr (Or.inr ⟨h, h'⟩)
  · exact Or.inl (Or.inl h)

instance : IsTrans (String × Nat) countDescName := by
  constructor
  intro a b c hab hbc
  rcases hab with hab | ⟨hab, hab'⟩ <;> rcases hbc with hbc | ⟨hbc, hbc'⟩
  · exact Or.inl (lt_trans hbc hab)
  · exact Or.inl (hbc ▸ hab)
  · exact Or.inl (hab ▸ hbc)
  · exact Or.inr ⟨hbc.trans hab, le_trans hab' hbc'⟩

/-- Mean of the non-missing temperature observations of one date group, as
computed by a pandas groupby mean: NaN values are skipped and an empty group
yields NaN (modelled as none). -/
def meanOpt (l : List Rat) : Option Rat :=
  if l.isEmpty then none else some (l.sum / (l.length : Rat))

/-- Embedding of df.groupby("date").size().reset_index(name="trip_count"):
identical line in both dashboards (st_dashboard.py line 64 and
st_dashboard_Part_2.py line 98).  NaT dates are dropped by groupby. -/
def daily_trips (rows : List Trip) : List (Nat × Nat) :=
  groupbySize (· ≤ ·) (fun t => t.date) rows

/-- Embedding of the per-date temperature mean, df.groupby("date")["avgTemp"]
.mean().reset_index() (st_dashboard.py line 65, st_dashboard_Part_2.py
line 101). -/
def daily_temp (rows : List Trip) : List (Nat × Option Rat) :=
  (sortedKeys (· ≤ ·) (rows.filterMap (fun t => t.date))).map
    (fun d => (d, meanOpt ((rows.filter (fun t => t.date = some d)).filterMap
      (fun t => t.avgTemp))))

/-- Inner merge of the two per-date tables on the date column, preserving the
left table's row order; pd.merge(daily_trips, daily_temp, on="date")
(st_dashboard.py line 66). -/
def merge_inner (left : List (Nat × Nat)) (right : List (Nat × Option Rat)) :
    List (Nat × Nat × Option Rat) :=
  left.filterMap (fun p => (right.lookup p.1).map (fun m => (p.1, p.2, m)))

/-- Left merge of the two per-date tables on the date column; pd.merge(...,
how="left") (st_dashboard_Part_2.py line 102).  A left row with no match keeps
a missing temperature. -/
def merge_left (left : List (Nat × Nat)) (right : List (Nat × Option Rat)) :
    List (Nat × Nat × Option Rat) :=
  left.map (fun p => (p.1, p.2, ((right.lookup p.1).join)))

/-- Composite group key of the route-level map aggregate of st_dashboard.py
lines 125 to 129: the six grouped columns in their column order. -/
def routeKey (t : Trip) :
    Option (String × String × Rat × Rat × Rat × Rat) :=
  match t.start_lat, t.start_lng, t.end_lat, t.end_lng with
  | some sla, some slo, some ela, some elo =>
      some (t.start_station_name, t.end_station_name, sla, slo, ela, elo)
  | _, _, _, _ => none

/-- Sort order of the route-level group keys: lexicographic across the six
grouped columns. -/
def routeLe : (String × String × Rat × Rat × Rat × Rat) →
    (String × String × Rat × Rat × Rat × Rat) → Prop :=
  lexLe strLt (lexLe strLt (lexLe (· < ·) (lexLe (· < ·) (lexLe (· < ·) (· ≤ ·)))))

instance : DecidableRel routeLe := fun p q => by
  unfold routeLe
  infer_instance

/-- Composite group key of the station-level map aggregate of
st_dashboard_Part_2.py lines 179 to 183: start station name and start
coordinates. -/
def stationKey (t : Trip) : Option (String × Rat × Rat) :=
  match t.start_lat, t.start_lng with
  | some sla, some slo => some (t.start_station_name, sla, slo)
  | _, _ => none

/-- Sort order of the station-level group keys. -/
def stationLe : (String × Rat × Rat) → (String × Rat × Rat) → Prop :=
  lexLe strLt (lexLe (· < ·) (· ≤ ·))

instance : DecidableRel stationLe := fun p q => by
  unfold stationLe
  infer_instance

namespace D1

/-- Embedding of top_stations (st_dashboard.py lines 38 to 44), generalised
over the head bound n (the script uses n = 20): group by start station name,
count rows per group, sort descending by trip_count, keep the first n rows.
The script's sort_values uses the default numpy quicksort, whose order among
equal counts is not specified (it is unstable beyond small arrays); the model
determinizes it as a stable sort.  No theorem about this dashboard draws a
tie-order conclusion from that choice: the properties proved of it (length,
descending counts) are invariant under the order of equal-count rows. -/
def top_stations (rows : List Trip) (n : Nat) : List (String × Nat) :=
  ((groupbySize strLe (fun t => some t.start_station_name) rows).insertionSort
    countDesc).take n

/-- Embedding of daily_data (st_dashboard.py lines 64 to 66): the two per-date
tables inner-merged on the date column. -/
def daily_data (rows : List Trip) : List (Nat × Nat × Option Rat) :=
  merge_inner (daily_trips rows) (daily_temp rows)

/-- Embedding of df_map (st_dashboard.py lines 125 to 129): trips grouped by
the six route columns, counted per group; a row with any of the four
coordinates missing has no complete group key and is dropped by groupby. -/
def df_map (rows : List Trip) : List ((String × String × Rat × Rat × Rat × Rat) × Nat) :=
  groupbySize routeLe routeKey rows

end D1

namespace D2

/-- Embedding of the row-dropping step of load_data (st_dashboard_Part_2.py
lines 39 to 47): the date column is parsed with errors="coerce" (already
reflected in the Option-valued date field) and rows whose date is NaT are
removed by dropna(subset=["date"]).  Column renaming and the CSV download are
outside the model. -/
def load_data (raw : List Trip) : List Trip :=
  raw.filter (fun t => t.date.isSome)

/-- Embedding of top_stations (st_dashboard_Part_2.py lines 146 to 151):
a value column holding 1 is summed per start-station group (groupby with
as_index=False keeps the groups in ascending name order), and nlargest(20,
"value") keeps the 20 rows with the largest sums, ties resolved in favour of
rows appearing earlier, i.e. a stable descending sort followed by take 20. -/
def top_stations (rows : List Trip) : List (String × Nat) :=
  (((sortedKeys strLe (rows.map (fun t => t.start_station_name))).map
      (fun k => (k, ((rows.filter (fun t => t.start_station_name = k)).map
        (fun _ => 1)).sum))).insertionSort countDesc).take 20

/-- Embedding of daily_data (st_dashboard_Part_2.py lines 98 to 105): the
per-date tables left-merged on the date column.  The dataset has the avgtemp
column, so the else-branch that fabricates an all-missing column is not
taken. -/
def daily_data (rows : List Trip) : List (Nat × Nat × Option Rat) :=
  merge_left (daily_trips rows) (daily_temp rows)

/-- Embedding of df_map (st_dashboard_Part_2.py lines 179 to 183): trips
grouped by start station name and start coordinates, counted per group; rows
with a missing start coordinate have no complete key and are dropped by
groupby. -/
def df_map (rows : List Trip) : List ((String × Rat × Rat) × Nat) :=
  groupbySize stationLe stationKey rows

end D2

/-- A dataframe as seen by the scripts: its rows together with its list of
column names, which the second dashboard's top_stations extends in place. -/
structure Frame where
  rows : List Trip
  cols : List String
deriving DecidableEq

/-- Column names of the loaded table (st_dashboard_Part_2.py lines 55 to 58
list the expected ones). -/
def baseCols : List String :=
  ["ride_id", "date", "start_station_name", "start_lat", "start_lng",
   "end_station_name", "end_lat", "end_lng", "avgtemp"]

namespace D2

/-- State-level embedding of top_stations of st_dashboard_Part_2.py: the
statement df["value"] = 1 (line 146) adds a value column to the input frame
itself before grouping, so the function returns the post-state of the frame
alongside its result table. -/
def top_stations_df (f : Frame) : Frame × List (String × Nat) :=
  ({ f with cols := if "value" ∈ f.cols then f.cols else f.cols ++ ["value"] },
   top_stations f.rows)

/-- State-level embedding of the daily view of st_dashboard_Part_2.py: no
statement writes to df, so the frame is returned unchanged. -/
def daily_data_df (f : Frame) : Frame × List (Nat × Nat × Option Rat) :=
  (f, daily_data f.rows)

/-- State-level embedding of the map view of st_dashboard_Part_2.py: no
statement writes to df, so the frame is returned unchanged. -/
def df_map_df (f : Frame) : Frame × List ((String × Rat × Rat) × Nat) :=
  (f, df_map f.rows)

end D2

/-- Concrete row at station A used by witnesses and counterexamples. -/
def exTripA : Trip :=
  ⟨"r1", some 10, "A", some 1, some 2, "Z", some 5, some 6, some 5⟩

/-- Concrete row at station B used by witnesses and counterexamples. -/
def exTripB : Trip :=
  ⟨"r2", some 11, "B", some 3, some 4, "Z", some 5, some 6, some 10⟩

/-- Second concrete row at station A, with start coordinates differing from
those of exTripA. -/
def exTripA2 : Trip :=
  ⟨"r3", some 10, "A", some 3, some 4, "Z", some 5, some 6, some 5⟩

/-- Concrete row whose start date failed to parse. -/
def exTripNaT : Trip :=
  ⟨"r4", none, "A", some 1, some 2, "Z", some 5, some 6, some 5⟩

/-- Concrete frame holding one row and the base columns. -/
def exFrame : Frame := ⟨[exTripA], baseCols⟩

/-! Helper lemmas about the generic groupby embedding. -/

theorem sum_map_ones {α : Type} (l : List α) : (l.map fun _ => (1 : Nat)).sum = l.length := by
  induction l with
  | nil => rfl
  | cons a l ih => simp [ih, Nat.add_comm]

theorem filter_key_count {K : Type} [DecidableEq K] (key : Trip → Option K) (k : K) :
    ∀ rows : List Trip,
      (rows.filter (fun t => key t = some k)).length = (rows.filterMap key).count k := by
  intro rows
  induction rows with
  | nil => rfl
  | cons t rows ih =>
    cases h : key t with
    | none => simp [List.filter_cons, List.filterMap_cons, h, ih]
    | some v =>
      by_cases hv : v = k
      · subst hv
        simp [List.filter_cons, List.filterMap_cons, h, ih, List.count_cons]
      · simp [List.filter_cons, List.filterMap_cons, h, ih, List.count_cons, hv, Ne.symm hv]

theorem length_filterMap_key {K : Type} (key : Trip → Option K) :
    ∀ rows : List Trip,
      (rows.filterMap key).length = (rows.filter (fun t => (key t).isSome)).length := by
  intro rows
  induction rows with
  | nil => rfl
  | cons t rows ih =>
    cases h : key t with
    | none => simp [List.filter_cons, List.filterMap_cons, h, ih]
    | some v => simp [List.filter_cons, List.filterMap_cons, h, ih]

theorem sortedKeys_perm {K : Type} [DecidableEq K] (r : K → K → Prop) [DecidableRel r]
    (keys : List K) : (sortedKeys r keys).Perm keys.dedup :=
  List.perm_insertionSort r keys.dedup

theorem sortedKeys_nodup {K : Type} [DecidableEq K] (r : K → K → Prop) [DecidableRel r]
    (keys : List K) : (sortedKeys r keys).Nodup :=
  ((sortedKeys_perm r keys).symm.nodup_iff).mp keys.nodup_dedup

theorem mem_sortedKeys {K : Type} [DecidableEq K] (r : K → K → Prop) [DecidableRel r]
    {keys : List K} {k : K} : k ∈ sortedKeys r keys ↔ k ∈ keys := by
  rw [(sortedKeys_perm r keys).mem_iff, List.mem_dedup]

theorem groupbySize_sum {K : Type} [DecidableEq K] (r : K → K → Prop) [DecidableRel r]
    (key : Trip → Option K) (rows : List Trip) :
    ((groupbySize r key rows).map (fun p => p.2)).sum
      = (rows.filter (fun t => (key t).isSome)).length := by
  unfold groupbySize
  rw [List.map_map]
  have h1 : ((sortedKeys r (rows.filterMap key)).map
      ((fun p : K × Nat => p.2) ∘ (fun k => (k, (rows.filter (fun t => key t = some k)).length)))).sum
      = ((rows.filterMap key).dedup.map
        (fun k => (rows.filter (fun t => key t = some k)).length)).sum :=
    ((sortedKeys_perm r (rows.filterMap key)).map _).sum_eq
  rw [h1]
  have h2 : ((rows.filterMap key).dedup.map
      (fun k => (rows.filter (fun t => key t = some k)).length)).sum
      = ((rows.filterMap key).dedup.map (fun k => (rows.filterMap key).count k)).sum := by
    have : (fun k => (rows.filter (fun t => key t = some k)).length)
        = (fun k => (rows.filterMap key).count k) := by
      funext k
      exact filter_key_count key k rows
    rw [this]
  rw [h2, List.sum_map_count_dedup_eq_length, length_filterMap_key]

theorem length_filter_isSome_add {K : Type} (key : Trip → Option K) :
    ∀ rows : List Trip,
      (rows.filter (fun t => (key t).isSome)).length
        + (rows.filter (fun t => (key t).isNone)).length = rows.length := by
  intro rows
  induction rows with
  | nil => rfl
  | cons t rows ih =>
    cases h : key t with
    | none => simp [List.filter_cons, h]; omega
    | some v => simp [List.filter_cons, h]; omega

theorem groupbySize_length {K : Type} [DecidableEq K] (r : K → K → Prop) [DecidableRel r]
    (key : Trip → Option K) (rows : List Trip) :
    (groupbySize r key rows).length = (rows.filterMap key).dedup.length := by
  unfold groupbySize
  rw [List.length_map]
  exact (sortedKeys_perm r (rows.filterMap key)).length_eq

theorem groupbySize_fst {K : Type} [DecidableEq K] (r : K → K → Prop) [DecidableRel r]
    (key : Trip → Option K) (rows : List Trip) :
    (groupbySize r key rows).map (fun p => p.1) = sortedKeys r (rows.filterMap key) := by
  unfold groupbySize
  rw [List.map_map]
  exact List.map_id _

theorem groupbySize_fst_nodup {K : Type} [DecidableEq K] (r : K → K → Prop) [DecidableRel r]
    (key : Trip → Option K) (rows : List Trip) :
    ((groupbySize r key rows).map (fun p => p.1)).Nodup := by
  rw [groupbySize_fst]
  exact sortedKeys_nodup r _

theorem mem_groupbySize_key {K : Type} [DecidableEq K] (r : K → K → Prop) [DecidableRel r]
    (key : Trip → Option K) (rows : List Trip) {p : K × Nat}
    (hp : p ∈ groupbySize r key rows) : ∃ t ∈ rows, key t = some p.1 := by
  unfold groupbySize at hp
  rcases List.mem_map.mp hp with ⟨k, hk, hkp⟩
  rw [mem_sortedKeys] at hk
  rcases List.mem_filterMap.mp hk with ⟨t, ht, hkey⟩
  exact ⟨t, ht, by rw [← hkp]; exact hkey⟩

/-! Stability of the descending count sort: on a table whose station names are
already in ascending order (which is how groupby emits it), sorting by count
descending is the same as sorting by count descending with ascending-name
tie-break. -/

theorem orderedInsert_countDesc_eq (a : String × Nat) :
    ∀ l : List (String × Nat), (∀ x ∈ l, strLe a.1 x.1) →
      l.orderedInsert countDesc a = l.orderedInsert countDescName a := by
  intro l
  induction l with
  | nil => intro _; rfl
  | cons b l ih =>
    intro h
    have hiff : countDesc a b ↔ countDescName a b := by
      unfold countDesc countDescName
      constructor
      · intro hle
        rcases Nat.lt_or_ge b.2 a.2 with h' | h'
        · exact Or.inl h'
        · exact Or.inr ⟨Nat.le_antisymm hle h', h b (List.mem_cons_self b l)⟩
      · intro h'
        rcases h' with h' | ⟨h', _⟩
        · exact Nat.le_of_lt h'
        · exact Nat.le_of_eq h'
    simp only [List.orderedInsert]
    by_cases hc : countDesc a b
    · rw [if_pos hc, if_pos (hiff.mp hc)]
    · rw [if_neg hc, if_neg (fun hcn => hc (hiff.mpr hcn)),
        ih (fun x hx => h x (List.mem_cons_of_mem b hx))]

theorem insertionSort_countDesc_eq :
    ∀ l : List (String × Nat), l.Pairwise (fun p q => strLe p.1 q.1) →
      l.insertionSort countDesc = l.insertionSort countDescName := by
  intro l
  induction l with
  | nil => intro _; rfl
  | cons a l ih =>
    intro h
    rcases List.pairwise_cons.mp h with ⟨ha, hl⟩
    simp only [List.insertionSort]
    rw [ih hl]
    exact orderedInsert_countDesc_eq a (l.insertionSort countDescName)
      (fun x hx => ha x ((List.perm_insertionSort countDescName l).mem_iff.mp hx))

/-! The grouped station-count table and facts about it. -/

theorem stationCounts_pairwise_names (rows : List Trip) :
    (groupbySize strLe (fun t => some t.start_station_name) rows).Pairwise
      (fun p q => strLe p.1 q.1) := by
  unfold groupbySize
  rw [List.pairwise_map]
  exact List.sorted_insertionSort strLe _

theorem stationCounts_pairwise_ne (rows : List Trip) :
    (groupbySize strLe (fun t => some t.start_station_name) rows).Pairwise
      (fun p q => p.1 ≠ q.1) := by
  unfold groupbySize
  rw [List.pairwise_map]
  exact (sortedKeys_nodup strLe _).imp (fun h => h)

/-- The two dashboards compute the same top-station table: summing a column of
ones per group equals counting the rows of the group, and filterMap over a
total key function is a plain map. -/
theorem top_stations_bridge (rows : List Trip) :
    D2.top_stations rows = D1.top_stations rows 20 := by
  unfold D2.top_stations D1.top_stations groupbySize
  have hk : rows.filterMap (fun t => some t.start_station_name)
      = rows.map (fun t => t.start_station_name) := by
    induction rows with
    | nil => rfl
    | cons t rows ih => simp [List.filterMap_cons, ih]
  have hf : (fun k => (k, ((rows.filter (fun t => t.start_station_name = k)).map
        (fun _ => 1)).sum))
      = (fun k => (k, (rows.filter (fun t => (fun s => some s.start_station_name) t = some k)).length)) := by
    funext k
    simp [sum_map_ones]
  rw [hk, hf]

theorem lookup_keyed {β : Type} (f : Nat → β) :
    ∀ (keys : List Nat) (k : Nat), k ∈ keys →
      (keys.map (fun d => (d, f d))).lookup k = some (f k) := by
  intro keys
  induction keys with
  | nil => intro k hk; cases hk
  | cons d keys ih =>
    intro k hk
    by_cases hkd : k = d
    · subst hkd
      simp [List.lookup]
    · rcases List.mem_cons.mp hk with h | h
      · exact absurd h hkd
      · simpa [List.lookup, beq_false_of_ne hkd] using ih k h

/-- Looking a date that occurs in the trip table up in the per-date
temperature table succeeds and returns that date's mean. -/
theorem lookup_daily_temp (rows : List Trip) {d : Nat}
    (hd : d ∈ sortedKeys (· ≤ ·) (rows.filterMap (fun t => t.date))) :
    (daily_temp rows).lookup d
      = some (meanOpt ((rows.filter (fun t => t.date = some d)).filterMap
          (fun t => t.avgTemp))) := by
  unfold daily_temp
  exact lookup_keyed _ _ d hd

/-- Dates of the inner-merged daily table: every date of the trip-count table
also keys the temperature table, so the merge keeps exactly the trip-count
dates in order. -/
theorem daily_data_inner_dates (rows : List Trip) :
    (D1.daily_data rows).map (fun p => p.1)
      = sortedKeys (· ≤ ·) (rows.filterMap (fun t => t.date)) := by
  unfold D1.daily_data merge_inner daily_trips groupbySize
  have main : ∀ keys : List Nat,
      (∀ x ∈ keys, x ∈ sortedKeys (· ≤ ·) (rows.filterMap (fun t => t.date))) →
      ((keys.map (fun k => (k, (rows.filter (fun t => t.date = some k)).length))).filterMap
        (fun p => ((daily_temp rows).lookup p.1).map (fun m => (p.1, p.2, m)))).map
          (fun p => p.1) = keys := by
    intro keys
    induction keys with
    | nil => intro _; rfl
    | cons d keys ih =>
      intro hmem
      have hd : d ∈ sortedKeys (· ≤ ·) (rows.filterMap (fun t => t.date)) :=
        hmem d (List.mem_cons_self d keys)
      rw [List.map_cons, List.filterMap_cons]
      simp only [lookup_daily_temp rows hd, Option.map_some']
      rw [List.map_cons, ih (fun x hx => hmem x (List.mem_cons_of_mem d hx))]
  exact main _ (fun x hx => hx)

/-- Trip counts of the inner-merged daily table: the merge keeps every row of
the per-date trip-count table, in order, with its count unchanged. -/
theorem daily_data_inner_counts (rows : List Trip) :
    (D1.daily_data rows).map (fun p => p.2.1)
      = (daily_trips rows).map (fun p => p.2) := by
  unfold D1.daily_data merge_inner daily_trips groupbySize
  have main : ∀ keys : List Nat,
      (∀ x ∈ keys, x ∈ sortedKeys (· ≤ ·) (rows.filterMap (fun t => t.date))) →
      ((keys.map (fun k => (k, (rows.filter (fun t => t.date = some k)).length))).filterMap
        (fun p => ((daily_temp rows).lookup p.1).map (fun m => (p.1, p.2, m)))).map
          (fun p => p.2.1)
        = (keys.map (fun k => (k, (rows.filter
            (fun t => t.date = some k)).length))).map (fun p => p.2) := by
    intro keys
    induction keys with
    | nil => intro _; rfl
    | cons d keys ih =>
      intro hmem
      have hd : d ∈ sortedKeys (· ≤ ·) (rows.filterMap (fun t => t.date)) :=
        hmem d (List.mem_cons_self d keys)
      simp only [List.map_cons]
      rw [List.filterMap_cons]
      simp only [lookup_daily_temp rows hd, Option.map_some', List.map_cons]
      rw [ih (fun x hx => hmem x (List.mem_cons_of_mem d hx))]
  exact main _ (fun x hx => hx)

/-- Trip counts of the left-merged daily table: a left merge keeps every left
row with its count unchanged. -/
theorem daily_data_left_counts (rows : List Trip) :
    (D2.daily_data rows).map (fun p => p.2.1)
      = (daily_trips rows).map (fun p => p.2) := by
  unfold D2.daily_data merge_left
  rw [List.map_map]
  rfl

/-- Dates of the left-merged daily table are exactly the trip-count dates. -/
theorem daily_data_left_dates (rows : List Trip) :
    (D2.daily_data rows).map (fun p => p.1)
      = sortedKeys (· ≤ ·) (rows.filterMap (fun t => t.date)) := by
  unfold D2.daily_data merge_left
  rw [List.map_map]
  have : ((fun p : Nat × Nat × Option Rat => p.1) ∘
      (fun p : Nat × Nat => (p.1, p.2, ((daily_temp rows).lookup p.1).join)))
      = (fun p : Nat × Nat => p.1) := rfl
  rw [this]
  have h := groupbySize_fst (fun a b : Nat => a ≤ b) (fun t => t.date) rows
  exact h

/-- The date keys of the daily grouping are strictly increasing. -/
theorem sortedKeys_dates_strict (rows : List Trip) :
    (sortedKeys (· ≤ ·) (rows.filterMap (fun t => t.date))).Pairwise (· < ·) :=
  (List.sorted_insertionSort _ _).lt_of_le (sortedKeys_nodup _ _)

/-- The station-name key column never drops a row: filterMap over an
always-present key is a plain map. -/
theorem filterMap_some_name (rows : List Trip) :
    rows.filterMap (fun t => some t.start_station_name)
      = rows.map (fun t => t.start_station_name) := by
  induction rows with
  | nil => rfl
  | cons t rows ih => simp [List.filterMap_cons, ih]

/-- Claim C1: for every trip table and every n, the top-station view has
exactly min(n, number of distinct start-station names) rows, in both
dashboards (the second fixes n = 20); in particular n = 0 and the empty table
both yield the empty sequence. -/
theorem C1_topStations_length (rows : List Trip) (n : Nat) :
    (D1.top_stations rows n).length
        = min n ((rows.map (fun t => t.start_station_name)).dedup.length)
    ∧ (D2.top_stations rows).length
        = min 20 ((rows.map (fun t => t.start_station_name)).dedup.length) := by
  have hd1 : ∀ m : Nat, (D1.top_stations rows m).length
      = min m ((rows.map (fun t => t.start_station_name)).dedup.length) := by
    intro m
    unfold D1.top_stations
    rw [List.length_take]
    congr 1
    rw [(List.perm_insertionSort countDesc _).length_eq, groupbySize_length,
      filterMap_some_name]
  exact ⟨hd1 n, by rw [top_stations_bridge]; exact hd1 20⟩

/-- Claim C2: in both dashboards the top-station view is sorted
non-increasingly by trip count: every adjacent pair (a, b) satisfies
b.trip_count ≤ a.trip_count. -/
theorem C2_topStations_sorted (rows : List Trip) (n : Nat) :
    (D1.top_stations rows n).Chain' (fun a b => b.2 ≤ a.2)
    ∧ (D2.top_stations rows).Chain' (fun a b => b.2 ≤ a.2) := by
  have hd1 : ∀ m : Nat, (D1.top_stations rows m).Chain' (fun a b => b.2 ≤ a.2) := by
    intro m
    unfold D1.top_stations
    have hs : ((groupbySize strLe (fun t => some t.start_station_name)
          rows).insertionSort countDesc).Pairwise countDesc :=
      List.sorted_insertionSort countDesc _
    exact (hs.sublist (List.take_sublist m _)).chain'
  exact ⟨hd1 n, by rw [top_stations_bridge]; exact hd1 20⟩

/-- Claim C3, counterexample: with station B first in the input and station A
second, both with one trip, the top-station view of either dashboard lists A
before B, because groupby has re-ordered the group keys lexicographically
before the count sort; the claimed first-encountered-in-input tie order would
list B first. -/
theorem C3_counterexample :
    D2.top_stations [exTripB, exTripA] = [("A", 1), ("B", 1)]
    ∧ D1.top_stations [exTripB, exTripA] 2 = [("A", 1), ("B", 1)]
    ∧ D2.top_stations [exTripB, exTripA] ≠ [("B", 1), ("A", 1)] := by
  decide

/-- Claim C3 as amended: in the second dashboard, whose nlargest keeps the
first-occurring rows of the ascending-name group table on ties (a stable
selection), two stations with equal trip counts appear in lexicographically
ascending name order, regardless of the order the stations first appear in
the input.  The first dashboard's sort_values uses an unstable sort, so its
tie order carries no guarantee and none is asserted for it. -/
theorem C3_tie_lexicographic (rows : List Trip) :
    (D2.top_stations rows).Pairwise
        (fun a b => a.2 = b.2 → (strLe a.1 b.1 ∧ a.1 ≠ b.1)) := by
  rw [top_stations_bridge]
  unfold D1.top_stations
  rw [insertionSort_countDesc_eq _ (stationCounts_pairwise_names rows)]
  have hsorted : ((groupbySize strLe (fun t => some t.start_station_name)
        rows).insertionSort countDescName).Pairwise countDescName :=
    List.sorted_insertionSort countDescName _
  have hne : ((groupbySize strLe (fun t => some t.start_station_name)
        rows).insertionSort countDescName).Pairwise (fun p q => p.1 ≠ q.1) :=
    ((List.perm_insertionSort countDescName _).symm.pairwise_iff
      (fun h => Ne.symm h)).mp (stationCounts_pairwise_ne rows)
  have hcomb := hsorted.and hne
  refine ((hcomb.sublist (List.take_sublist 20 _)).imp ?_)
  intro a b hab heq
  rcases hab with ⟨hcd | ⟨_, hle⟩, hne'⟩
  · exact absurd heq (ne_of_gt hcd)
  · exact ⟨hle, hne'⟩

/-- Claim C4: the trip counts of the rows returned by the merged daily view
of either dashboard sum to the number of input rows whose start date parsed
to a valid date; rows with a missing or unparseable date are silently dropped
by the date groupby (no error is possible: the embedding is a total
function). -/
theorem C4_daily_sum (rows : List Trip) :
    ((D1.daily_data rows).map (fun p => p.2.1)).sum
        = (rows.filter (fun t => t.date.isSome)).length
    ∧ ((D2.daily_data rows).map (fun p => p.2.1)).sum
        = (rows.filter (fun t => t.date.isSome)).length := by
  rw [daily_data_inner_counts, daily_data_left_counts]
  exact ⟨groupbySize_sum _ _ rows, groupbySize_sum _ _ rows⟩

/-- Claim C5: in both dashboards the daily view has strictly increasing dates,
hence exactly one row per distinct calendar date present in the input and no
duplicates. -/
theorem C5_daily_dates (rows : List Trip) :
    ((D1.daily_data rows).map (fun p => p.1)).Pairwise (· < ·)
    ∧ ((D2.daily_data rows).map (fun p => p.1)).Pairwise (· < ·)
    ∧ (∀ d, d ∈ (D1.daily_data rows).map (fun p => p.1)
        ↔ ∃ t ∈ rows, t.date = some d)
    ∧ (∀ d, d ∈ (D2.daily_data rows).map (fun p => p.1)
        ↔ ∃ t ∈ rows, t.date = some d) := by
  rw [daily_data_inner_dates, daily_data_left_dates]
  refine ⟨sortedKeys_dates_strict rows, sortedKeys_dates_strict rows, ?_, ?_⟩ <;>
  · intro d
    rw [mem_sortedKeys]
    exact List.mem_filterMap

/-- Claim C6: in both dashboards the map view drops exactly the rows with a
missing required coordinate (the groupby key is incomplete for them), every
output row's key comes from a row whose coordinates are present, and the
output trip counts plus the dropped-row count add up to the input size. -/
theorem C6_map_partition (rows : List Trip) :
    ((D2.df_map rows).map (fun p => p.2)).sum
        + (rows.filter (fun t => (stationKey t).isNone)).length = rows.length
    ∧ (∀ p ∈ D2.df_map rows, ∃ t ∈ rows, stationKey t = some p.1)
    ∧ ((D1.df_map rows).map (fun p => p.2)).sum
        + (rows.filter (fun t => (routeKey t).isNone)).length = rows.length
    ∧ (∀ p ∈ D1.df_map rows, ∃ t ∈ rows, routeKey t = some p.1) := by
  refine ⟨?_, fun p hp => mem_groupbySize_key _ _ rows hp,
    ?_, fun p hp => mem_groupbySize_key _ _ rows hp⟩
  · unfold D2.df_map
    rw [groupbySize_sum]
    exact length_filter_isSome_add stationKey rows
  · unfold D1.df_map
    rw [groupbySize_sum]
    exact length_filter_isSome_add routeKey rows

/-- Claim C7, counterexample: running the second dashboard's top-station view
changes the input frame: the statement that creates the helper value column
adds a column the frame did not have, so the post-state frame differs from the
input frame. -/
theorem C7_counterexample : (D2.top_stations_df exFrame).1 ≠ exFrame := by
  decide

/-- Claim C7 as amended: the daily and map views leave the input frame fully
unchanged, and the second dashboard's top-station view leaves the rows
unchanged but extends the column set with exactly the value column (the first
dashboard's three views contain no assignment to the frame at all). -/
theorem C7_amended (f : Frame) :
    (D2.daily_data_df f).1 = f
    ∧ (D2.df_map_df f).1 = f
    ∧ (D2.top_stations_df f).1.rows = f.rows
    ∧ (∀ c, c ∈ (D2.top_stations_df f).1.cols ↔ (c ∈ f.cols ∨ c = "value")) := by
  refine ⟨rfl, rfl, rfl, ?_⟩
  intro c
  unfold D2.top_stations_df
  by_cases hv : "value" ∈ f.cols
  · simp only [if_pos hv]
    exact ⟨fun h => Or.inl h, fun h => h.elim id (fun he => he ▸ hv)⟩
  · simp only [if_neg hv, List.mem_append, List.mem_singleton]

/-- Claim C8, counterexample: with two input rows at the same station name but
different start coordinates, the station-level map view of the second
dashboard returns two rows carrying the same station name, because the group
key is the full (name, lat, lng) triple rather than the name alone. -/
theorem C8_counterexample :
    (D2.df_map [exTripA, exTripA2]).map (fun p => p.1.1) = ["A", "A"]
    ∧ ¬ ((D2.df_map [exTripA, exTripA2]).map (fun p => p.1.1)).Nodup := by
  decide

/-- Claim C8 as amended: the map view has exactly one row per distinct group
key — the (station name, lat, lng) triple in the second dashboard and the
six-column route key in the first — so a station name recurs across output
rows exactly when it occurs with differing coordinates. -/
theorem C8_one_row_per_key (rows : List Trip) :
    ((D2.df_map rows).map (fun p => p.1)).Nodup
    ∧ ((D1.df_map rows).map (fun p => p.1)).Nodup :=
  ⟨groupbySize_fst_nodup _ _ rows, groupbySize_fst_nodup _ _ rows⟩

/-- Claim C9: on the empty trip table every view of both dashboards returns
the empty sequence; the embedding functions are total, so no failure is
possible. -/
theorem C9_empty_input (n : Nat) :
    D1.top_stations [] n = []
    ∧ D2.top_stations [] = []
    ∧ daily_trips [] = []
    ∧ D1.daily_data [] = []
    ∧ D2.daily_data [] = []
    ∧ D1.df_map [] = []
    ∧ D2.df_map [] = [] := by
  refine ⟨?_, rfl, rfl, rfl, rfl, rfl, rfl⟩
  simp [D1.top_stations, groupbySize, sortedKeys]

/-- Claim C10: in the second dashboard a row whose date failed to parse is
removed by load_data before any aggregation runs: it is absent from the loaded
table, the loaded table is the same as if the row had never been present, and
consequently all three derived views are unchanged by it. -/
theorem C10_load_drops_nat (raw : List Trip) (t : Trip) (h : t.date = none) :
    t ∉ D2.load_data (t :: raw)
    ∧ D2.load_data (t :: raw) = D2.load_data raw
    ∧ (∀ s ∈ D2.load_data (t :: raw), s.date.isSome)
    ∧ D2.top_stations (D2.load_data (t :: raw)) = D2.top_stations (D2.load_data raw)
    ∧ D2.daily_data (D2.load_data (t :: raw)) = D2.daily_data (D2.load_data raw)
    ∧ D2.df_map (D2.load_data (t :: raw)) = D2.df_map (D2.load_data raw) := by
  have hfilter : D2.load_data (t :: raw) = D2.load_data raw := by
    unfold D2.load_data
    rw [List.filter_cons]
    simp [h]
  have hmem : ∀ s ∈ D2.load_data (t :: raw), s.date.isSome := by
    intro s hs
    unfold D2.load_data at hs
    exact (List.mem_filter.mp hs).2
  refine ⟨?_, hfilter, hmem, by rw [hfilter], by rw [hfilter], by rw [hfilter]⟩
  intro ht
  have hsome := hmem t ht
  rw [h] at hsome
  exact Bool.noConfusion hsome

/-- Witness for claim C10 at a concrete input: one unparseable-date row over
the empty table is dropped by load_data and affects none of the views. -/
theorem C10_witness :
    exTripNaT.date = none
    ∧ (exTripNaT ∉ D2.load_data [exTripNaT]
      ∧ D2.load_data [exTripNaT] = D2.load_data []
      ∧ (∀ s ∈ D2.load_data [exTripNaT], s.date.isSome)
      ∧ D2.top_stations (D2.load_data [exTripNaT]) = D2.top_stations (D2.load_data [])
      ∧ D2.daily_data (D2.load_data [exTripNaT]) = D2.daily_data (D2.load_data [])
      ∧ D2.df_map (D2.load_data [exTripNaT]) = D2.df_map (D2.load_data [])) :=
  ⟨rfl, C10_load_drops_nat [] exTripNaT rfl⟩
